import Mathlib

/-!
Shallow embedding of the calculation core of a small CRUD calculator service:
the operation dispatcher (`app/utils/calculation_factory.py`), the Pydantic
schemas with their division-by-zero validators (`app/schemas/calculation.py`),
and the create/update/patch routes (`app/routers/calculations.py`).

Python floats are modelled exactly: a `PyFloat` carries its exact value as a
rational together with a flag distinguishing the IEEE-754 value `-0.0` from
`+0.0` (the flag is meaningful only when the value is zero).  IEEE rounding of
finite results is not modelled — no property below depends on rounding, only on
which operator is applied, on the sign-of-zero, and on the exact-zero test
`b == 0` that guards division.  NaN and infinities are not modelled: the
properties quantify over finite doubles.
-/

/-- Model of a finite Python float: exact value plus a negative-zero marker.
`negZero` models the IEEE-754 sign bit of a zero; it is meaningful only when
`val = 0` (so `⟨0, true⟩` is `-0.0` and `⟨0, false⟩` is `+0.0`). -/
structure PyFloat where
  val : ℚ
  negZero : Bool
deriving DecidableEq

/-- Shorthand for the float with a given rational value and a positive sign bit. -/
def PyFloat.mk0 (q : ℚ) : PyFloat := ⟨q, false⟩

/-- The IEEE-754 value `-0.0`. -/
def PyFloat.negZeroF : PyFloat := ⟨0, true⟩

/-- Sign of a float (negative zero counts as negative). -/
def PyFloat.isNeg (x : PyFloat) : Bool := if x.val < 0 then true else x.negZero

/-- Python `a + b` on floats (exact; IEEE sign-of-zero rule for the sum:
the sum is `-0.0` exactly when both addends are `-0.0`, under round-to-nearest). -/
def PyFloat.add (x y : PyFloat) : PyFloat := ⟨x.val + y.val, x.negZero && y.negZero⟩

/-- IEEE negation: flips the sign bit, in particular the sign of a zero. -/
def PyFloat.negF (x : PyFloat) : PyFloat :=
  ⟨-x.val, if x.val = 0 then !x.negZero else false⟩

/-- Python `a - b` on floats, which is `a + (-b)` in IEEE arithmetic. -/
def PyFloat.sub (x y : PyFloat) : PyFloat := PyFloat.add x (PyFloat.negF y)

/-- Python `a * b` on floats (exact; a zero product carries the XOR of the signs). -/
def PyFloat.mul (x y : PyFloat) : PyFloat :=
  ⟨x.val * y.val, if x.val * y.val = 0 then x.isNeg != y.isNeg else false⟩

/-- Python `a / b` on floats; only ever invoked with a nonzero divisor
(the dispatcher rejects zero divisors before dividing). -/
def PyFloat.div (x y : PyFloat) : PyFloat :=
  ⟨x.val / y.val, if x.val = 0 then x.isNeg != y.isNeg else false⟩

/-- Python `b == 0` on a float `b`: IEEE numeric equality with zero, which is
true for both `0.0` and `-0.0` (the sign bit does not participate). -/
def PyFloat.eqZero (x : PyFloat) : Bool := if x.val = 0 then true else false

/-- Model of a raised Python exception: its class name and its message.  The
calculation core only ever raises `ValueError`, with two distinct messages. -/
structure PyError where
  className : String
  msg : String
deriving DecidableEq

/-- Model of `raise ValueError(msg)`. -/
def valueError (m : String) : PyError := ⟨"ValueError", m⟩

/-- The exception raised by `DivideOperation.execute` on a zero divisor. -/
def divisionByZeroError : PyError := valueError "Division by zero is not allowed"

/-- The `CalculationType` string enumeration of `app/schemas/calculation.py`:
`class CalculationType(str, Enum)` with the four members below. -/
inductive CalculationType
  | ADD
  | SUBTRACT
  | MULTIPLY
  | DIVIDE
deriving DecidableEq

/-- The string value of each `CalculationType` member (`.value` in Python). -/
def CalculationType.value : CalculationType → String
  | .ADD => "Add"
  | .SUBTRACT => "Subtract"
  | .MULTIPLY => "Multiply"
  | .DIVIDE => "Divide"

/-- A tag handed to the dispatcher.  Because `CalculationType` mixes in `str`,
the dispatcher may receive either an enumeration member (create route,
update routes when the caller supplies `type`) or a plain string (update
routes passing the stored column value back in). -/
inductive CalcTag
  | enum (t : CalculationType)
  | str (s : String)
deriving DecidableEq

/-- Python `==` between dispatcher tags: a `str`-mixin enumeration member
compares equal to a plain string exactly when its `.value` equals the string,
and members compare by their string content.  This is the equality the
`_operations` dictionary lookup uses. -/
def CalcTag.pyEq : CalcTag → CalcTag → Bool
  | .enum t, .enum u => t.value == u.value
  | .enum t, .str s => t.value == s
  | .str s, .enum t => s == t.value
  | .str s, .str u => s == u

/-- Python `f"{calc_type}"` for a tag: a `str`-mixin member formats as its
string content, a plain string as itself. -/
def CalcTag.fmt : CalcTag → String
  | .enum t => t.value
  | .str s => s

/-- One operation class of `app/utils/calculation_factory.py`
(`AddOperation`, `SubtractOperation`, `MultiplyOperation`, `DivideOperation`). -/
inductive Operation
  | addOp
  | subtractOp
  | multiplyOp
  | divideOp
deriving DecidableEq

/-- The `execute` method of each operation class.  `DivideOperation.execute`
raises `ValueError` when `b == 0`; the other three apply their operator and
cannot raise. -/
def Operation.execute : Operation → PyFloat → PyFloat → Except PyError PyFloat
  | .addOp, a, b => .ok (a.add b)
  | .subtractOp, a, b => .ok (a.sub b)
  | .multiplyOp, a, b => .ok (a.mul b)
  | .divideOp, a, b =>
      if b.eqZero then .error divisionByZeroError else .ok (a.div b)

namespace CalculationFactory

/-- The `_operations` registry: a dictionary from `CalculationType` members to
operation classes, in declaration (insertion) order.  Python dictionaries
preserve insertion order, so this list order is the registry order. -/
def operations : List (CalculationType × Operation) :=
  [(.ADD, .addOp), (.SUBTRACT, .subtractOp), (.MULTIPLY, .multiplyOp), (.DIVIDE, .divideOp)]

/-- Method `create_operation` of the factory: `cls._operations.get(calc_type)` —
a dictionary lookup under Python equality (so plain strings equal to a member
value also hit) — raising `ValueError` on a miss. -/
def create_operation (calc_type : CalcTag) : Except PyError Operation :=
  match operations.find? (fun kv => CalcTag.pyEq (.enum kv.1) calc_type) with
  | some kv => .ok kv.2
  | none => .error (valueError ("Unsupported calculation type: " ++ calc_type.fmt))

/-- Method `calculate` of the factory: create the operation for the tag, then
execute it on the operands. -/
def calculate (calc_type : CalcTag) (a b : PyFloat) : Except PyError PyFloat :=
  match create_operation calc_type with
  | .error e => .error e
  | .ok op => op.execute a b

/-- Method `get_supported_operations` of the factory:
`[calc_type.value for calc_type in cls._operations.keys()]`. -/
def get_supported_operations : List String :=
  operations.map (fun kv => kv.1.value)

end CalculationFactory

/-- The `CalculationCreate` schema: both operands and the type are required;
`user_id` is optional and ignored by the create route (the authenticated user
is used instead). -/
structure CalculationCreate where
  a : PyFloat
  b : PyFloat
  type : CalculationType
  user_id : Option Int
deriving DecidableEq

/-- The `validate_division_by_zero` field validator of `CalculationCreate`:
it runs while validating `type`, after `a` and `b` (field order), and raises
`ValueError` when the type is `DIVIDE` and `b == 0`.  On failure the request
is rejected before the route body runs (a 422 validation response). -/
def CalculationCreate.validate (p : CalculationCreate) :
    Except String CalculationCreate :=
  if p.type = CalculationType.DIVIDE ∧ p.b.eqZero = true then
    .error "Division by zero is not allowed"
  else .ok p

/-- The `CalculationUpdate` schema: every field optional.  A field is `none`
when the caller omits it (the routes read the payload with `exclude_unset`,
so omitted fields never reach the row).  Supplied fields are modelled with
their well-typed values. -/
structure CalculationUpdate where
  a : Option PyFloat
  b : Option PyFloat
  type : Option CalculationType
  user_id : Option Int
deriving DecidableEq

/-- The `validate_division_by_zero` field validator of `CalculationUpdate`:
raises `ValueError` only when the payload itself carries `type = DIVIDE`
together with a non-`None` `b` equal to zero; when either field is omitted
the validator passes and the route performs the effective-triple check. -/
def CalculationUpdate.validate (p : CalculationUpdate) :
    Except String CalculationUpdate :=
  match p.type, p.b with
  | some CalculationType.DIVIDE, some bv =>
      if bv.eqZero then .error "Division by zero is not allowed" else .ok p
  | _, _ => .ok p

/-- A stored row of the `calculations` table, restricted to the columns the
modelled routes read or write (`id` and `created_at` are database-managed and
untouched by them).  The `type` column is `String(20)`: the row stores the
string value of the enumeration member.  All of `a`, `b`, `type`, `result`
are `NOT NULL`; `user_id` is a nullable foreign key. -/
structure CalculationRow where
  a : PyFloat
  b : PyFloat
  type : String
  result : PyFloat
  user_id : Option Int
deriving DecidableEq

/-- The `CalculationRead` response schema, restricted to the same columns:
`result` is a required (non-optional) field, so every serialized Calculation
carries it. -/
structure CalculationRead where
  a : PyFloat
  b : PyFloat
  type : String
  result : PyFloat
  user_id : Option Int
deriving DecidableEq

/-- Serialization of a stored row through `CalculationRead`
(`from_attributes`): every field, `result` included, is copied from the row. -/
def CalculationRead.ofRow (row : CalculationRow) : CalculationRead :=
  ⟨row.a, row.b, row.type, row.result, row.user_id⟩

/-- Outcome of a modelled route call: a success response carrying the (new)
stored row, or an HTTP error response with a status code and a message. -/
inductive RouteResponse
  | success (status : Nat) (row : CalculationRow)
  | clientError (status : Nat) (detail : String)
deriving DecidableEq

/-- Route body `create_calculation` (POST): compute the result with the
factory — translating a `ValueError` into a 400 response — then persist a row
built from the payload, the result, and the id of the authenticated user. -/
def create_calculation (p : CalculationCreate) (userId : Int) : RouteResponse :=
  match CalculationFactory.calculate (.enum p.type) p.a p.b with
  | .error e => .clientError 400 e.msg
  | .ok result => .success 201 ⟨p.a, p.b, p.type.value, result, some userId⟩

/-- The POST pipeline: Pydantic validation of the payload (a failure is a 422
response whose message embeds the text of the validator), then the route body. -/
def postCalculations (p : CalculationCreate) (userId : Int) : RouteResponse :=
  match p.validate with
  | .error m => .clientError 422 ("Value error, " ++ m)
  | .ok p2 => create_calculation p2 userId

/-- Line `calc_type = update_data.get("type", db_calculation.type)` of the
update routes: the effective tag is the supplied enumeration member, or the
stored string when the payload omits `type`. -/
def effectiveType (row : CalculationRow) (p : CalculationUpdate) : CalcTag :=
  match p.type with
  | some t => .enum t
  | none => .str row.type

/-- Line `a = update_data.get("a", db_calculation.a)` of the update routes. -/
def effectiveA (row : CalculationRow) (p : CalculationUpdate) : PyFloat :=
  p.a.getD row.a

/-- Line `b = update_data.get("b", db_calculation.b)` of the update routes. -/
def effectiveB (row : CalculationRow) (p : CalculationUpdate) : PyFloat :=
  p.b.getD row.b

/-- The writes of the update routes on success: `db_calculation.result = result`
followed by `setattr` of exactly the fields present in the payload
(`exclude_unset`), so omitted fields keep their stored values. -/
def appliedRow (row : CalculationRow) (p : CalculationUpdate)
    (result : PyFloat) : CalculationRow :=
  { a := p.a.getD row.a
    b := p.b.getD row.b
    type := match p.type with
            | some t => t.value
            | none => row.type
    result := result
    user_id := match p.user_id with
               | some u => some u
               | none => row.user_id }

/-- Route body `update_calculation` (PUT): recompute the result from the
effective triple — a `ValueError` becomes a 400 response with no field
written, leaving the stored row unchanged — and on success write the supplied
fields plus the recomputed result.  Returns the response together with the
row as stored after the call. -/
def update_calculation (row : CalculationRow) (p : CalculationUpdate) :
    RouteResponse × CalculationRow :=
  match CalculationFactory.calculate (effectiveType row p)
      (effectiveA row p) (effectiveB row p) with
  | .error e => (.clientError 400 e.msg, row)
  | .ok result => (.success 200 (appliedRow row p result), appliedRow row p result)

/-- Route body of the PATCH route (named `partial_update_calculation` in the
source), which is
line-for-line identical to the PUT route body. -/
def patch_calculation (row : CalculationRow) (p : CalculationUpdate) :
    RouteResponse × CalculationRow :=
  match CalculationFactory.calculate (effectiveType row p)
      (effectiveA row p) (effectiveB row p) with
  | .error e => (.clientError 400 e.msg, row)
  | .ok result => (.success 200 (appliedRow row p result), appliedRow row p result)

/-- The PUT pipeline: Pydantic validation of the payload, then the route
body; a validation failure is a 422 response and the row is untouched. -/
def putCalculations (row : CalculationRow) (p : CalculationUpdate) :
    RouteResponse × CalculationRow :=
  match p.validate with
  | .error m => (.clientError 422 ("Value error, " ++ m), row)
  | .ok p2 => update_calculation row p2

/-- The PATCH pipeline, analogous to the PUT pipeline. -/
def patchCalculations (row : CalculationRow) (p : CalculationUpdate) :
    RouteResponse × CalculationRow :=
  match p.validate with
  | .error m => (.clientError 422 ("Value error, " ++ m), row)
  | .ok p2 => patch_calculation row p2

/-- A response is a client error when its status code is in the 4xx range. -/
def RouteResponse.isClientError : RouteResponse → Prop
  | .success _ _ => False
  | .clientError st _ => 400 ≤ st ∧ st < 500

/-- Stored-row consistency: the `result` column is exactly what the dispatcher
returns on the stored operands and stored (string) type. -/
def rowConsistent (row : CalculationRow) : Prop :=
  CalculationFactory.calculate (.str row.type) row.a row.b = .ok row.result

/-- A stored row never combines `type = "Divide"` with a zero divisor. -/
def divideSafe (row : CalculationRow) : Prop :=
  row.type = "Divide" → row.b.eqZero = false

/-! ### Shared lemmas -/

/-- A string starting with the unsupported-type prefix is never the
division-by-zero message. -/
theorem unsupported_msg_ne (x : String) :
    ("Unsupported calculation type: " ++ x) ≠ "Division by zero is not allowed" := by
  intro h
  have hd := congrArg String.data h
  rw [String.data_append] at hd
  have h1 : (['U'] : List Char) = ['D'] := by
    calc (['U'] : List Char)
        = List.take 1 ("Unsupported calculation type: ".data ++ x.data) := by
          rw [List.take_append_of_le_length (by decide)]
          decide
      _ = List.take 1 ("Division by zero is not allowed".data) := by rw [hd]
      _ = ['D'] := by decide
  exact absurd h1 (by decide)

/-- Dispatching on the plain string value of a member agrees with dispatching
on the member itself: the string enumeration makes the registry lookup hit on
raw strings. -/
theorem calculate_str_value (t : CalculationType) (a b : PyFloat) :
    CalculationFactory.calculate (.str t.value) a b =
      CalculationFactory.calculate (.enum t) a b := by
  cases t <;> rfl

/-- Unfolding of the dispatcher on the `DIVIDE` member. -/
theorem calculate_divide (a b : PyFloat) :
    CalculationFactory.calculate (.enum .DIVIDE) a b =
      if b.eqZero then .error divisionByZeroError else .ok (a.div b) := rfl

/-- A successful division dispatch means the divisor was not (IEEE) zero. -/
theorem divide_ok_eqZero {a b r : PyFloat}
    (h : CalculationFactory.calculate (.enum .DIVIDE) a b = .ok r) :
    b.eqZero = false := by
  rw [calculate_divide] at h
  by_cases hb : b.eqZero = true
  · rw [if_pos hb] at h
    exact absurd h (by simp)
  · simpa using hb

/-- A tag Python-equal to no registry key misses the dictionary lookup and
`create_operation` raises the unsupported-type `ValueError`. -/
theorem create_operation_unsupported (tag : CalcTag)
    (h : ∀ t : CalculationType, CalcTag.pyEq (.enum t) tag = false) :
    CalculationFactory.create_operation tag =
      .error (valueError ("Unsupported calculation type: " ++ tag.fmt)) := by
  unfold CalculationFactory.create_operation CalculationFactory.operations
  simp [List.find?, h]

/-- The create validator returns the payload unchanged when it passes. -/
theorem CalculationCreate.validate_passes {p q : CalculationCreate}
    (h : p.validate = .ok q) : q = p := by
  unfold CalculationCreate.validate at h
  split at h
  · exact absurd h (by simp)
  · exact (Except.ok.inj h).symm

/-- The update validator returns the payload unchanged when it passes. -/
theorem CalculationUpdate.validate_keeps {p q : CalculationUpdate}
    (h : p.validate = .ok q) : q = p := by
  unfold CalculationUpdate.validate at h
  split at h
  · split at h
    · exact absurd h (by simp)
    · exact (Except.ok.inj h).symm
  · exact (Except.ok.inj h).symm

/-- The update validator fails only on a payload carrying `DIVIDE` together
with a zero `b`. -/
theorem CalculationUpdate.validate_error {p : CalculationUpdate} {m : String}
    (h : p.validate = .error m) :
    p.type = some CalculationType.DIVIDE ∧
      ∃ bv, p.b = some bv ∧ bv.eqZero = true := by
  unfold CalculationUpdate.validate at h
  split at h
  · rename_i heqt heqb
    split at h
    · rename_i hz
      exact ⟨heqt, _, heqb, hz⟩
    · exact absurd h (by simp)
  · exact absurd h (by simp)

/-- The PATCH route body is line-for-line the PUT route body. -/
theorem patch_calculation_eq : patch_calculation = update_calculation := rfl

/-- The PATCH pipeline coincides with the PUT pipeline. -/
theorem patchCalculations_eq : patchCalculations = putCalculations := rfl
/-- Computation of the supported-operation listing, shared by proofs below. -/
theorem spec_C8_aux :
    CalculationFactory.get_supported_operations =
      ["Add", "Subtract", "Multiply", "Divide"] := by decide

/-! ### Claims -/

/-- C1: for every operand pair, dispatching `Divide` fails exactly when
`b == 0` (IEEE equality, no epsilon tolerance) with the `ValueError` realizing
`InvalidOperation`, whose message contains the substring "Division by zero";
for every nonzero divisor it returns `a / b`. -/
theorem spec_C1 (a b : PyFloat) :
    (b.eqZero = true →
      CalculationFactory.calculate (.enum .DIVIDE) a b = .error divisionByZeroError ∧
      ∃ pre post : String,
        pre ++ "Division by zero" ++ post = divisionByZeroError.msg) ∧
    (b.eqZero = false →
      CalculationFactory.calculate (.enum .DIVIDE) a b = .ok (a.div b)) := by
  constructor
  · intro hb
    exact ⟨by rw [calculate_divide, if_pos hb], "", " is not allowed", by decide⟩
  · intro hb
    rw [calculate_divide, if_neg (by simp [hb])]

/-- Witness for C1 at `a = 10`: division by `0.0` fails with the
division-by-zero error, division by `2.0` returns the quotient. -/
theorem spec_C1_witness :
    CalculationFactory.calculate (.enum .DIVIDE) (.mk0 10) (.mk0 0) =
        .error divisionByZeroError ∧
    CalculationFactory.calculate (.enum .DIVIDE) (.mk0 10) (.mk0 2) =
        .ok (PyFloat.div (.mk0 10) (.mk0 2)) :=
  ⟨((spec_C1 (.mk0 10) (.mk0 0)).1 (by decide)).1,
   (spec_C1 (.mk0 10) (.mk0 2)).2 (by decide)⟩

/-- C2: for all operands and every kind other than `Divide`, the dispatcher
raises nothing and returns exactly the operator applied to the operands
(`a + b`, `a - b`, `a * b` in the float model). -/
theorem spec_C2 (a b : PyFloat) :
    CalculationFactory.calculate (.enum .ADD) a b = .ok (a.add b) ∧
    CalculationFactory.calculate (.enum .SUBTRACT) a b = .ok (a.sub b) ∧
    CalculationFactory.calculate (.enum .MULTIPLY) a b = .ok (a.mul b) :=
  ⟨rfl, rfl, rfl⟩

/-- C8: `get_supported_operations` returns exactly the four kind names, as
exact strings, in declaration order; the registry is immutable (a plain
definition), so no call order or prior dispatch can change this. -/
theorem spec_C8 :
    CalculationFactory.get_supported_operations =
      ["Add", "Subtract", "Multiply", "Divide"] := by decide

/-- C9: for every plain string among the four supported names, dispatching on
the raw string behaves identically to dispatching on the member whose value it
is — the string-valued enumeration makes the registry lookup succeed on raw
strings, which the update routes rely on for the stored `type` column. -/
theorem spec_C9 (s : String) (a b : PyFloat)
    (h : s ∈ CalculationFactory.get_supported_operations) :
    ∃ t : CalculationType, t.value = s ∧
      CalculationFactory.calculate (.str s) a b =
        CalculationFactory.calculate (.enum t) a b := by
  rw [spec_C8_aux] at h
  simp only [List.mem_cons, List.not_mem_nil, or_false] at h
  rcases h with h | h | h | h
  · exact h ▸ ⟨.ADD, rfl, calculate_str_value .ADD a b⟩
  · exact h ▸ ⟨.SUBTRACT, rfl, calculate_str_value .SUBTRACT a b⟩
  · exact h ▸ ⟨.MULTIPLY, rfl, calculate_str_value .MULTIPLY a b⟩
  · exact h ▸ ⟨.DIVIDE, rfl, calculate_str_value .DIVIDE a b⟩

/-- Witness for C9 at `s = "Divide"`. -/
theorem spec_C9_witness :
    ∃ t : CalculationType, t.value = "Divide" ∧
      CalculationFactory.calculate (.str "Divide") (.mk0 1) (.mk0 2) =
        CalculationFactory.calculate (.enum t) (.mk0 1) (.mk0 2) :=
  spec_C9 "Divide" (.mk0 1) (.mk0 2) (by decide)

/-- C10: for every operand `a`, dividing by `-0.0` fails with the
division-by-zero error: the `b == 0` test is IEEE equality, under which
negative zero equals zero, even though `-0.0` is a distinct float value. -/
theorem spec_C10 :
    (∀ a : PyFloat,
      CalculationFactory.calculate (.enum .DIVIDE) a PyFloat.negZeroF =
        .error divisionByZeroError) ∧
    PyFloat.negZeroF ≠ PyFloat.mk0 0 ∧
    PyFloat.negZeroF.eqZero = true :=
  ⟨fun _ => rfl, by decide, rfl⟩
/-- A row persisted by the create route body carries the result of the dispatcher
for its own stored fields. -/
theorem create_success_consistent {p : CalculationCreate} {uid : Int}
    {st : Nat} {row : CalculationRow}
    (h : create_calculation p uid = .success st row) : rowConsistent row := by
  unfold create_calculation at h
  split at h
  · exact absurd h (by simp)
  · rename_i r heq
    cases h
    show CalculationFactory.calculate (.str p.type.value) p.a p.b = .ok r
    rw [calculate_str_value]
    exact heq

/-- A row persisted through the POST pipeline carries the result of the dispatcher
for its own stored fields. -/
theorem post_success_consistent {p : CalculationCreate} {uid : Int}
    {st : Nat} {row : CalculationRow}
    (h : postCalculations p uid = .success st row) : rowConsistent row := by
  unfold postCalculations at h
  split at h
  · exact absurd h (by simp)
  · exact create_success_consistent h

/-- The PUT route body preserves stored-row consistency: on failure the row is
untouched, on success the recomputed result is stored with the effective
fields it was computed from. -/
theorem update_preserves_consistent (row : CalculationRow) (p : CalculationUpdate)
    (hrow : rowConsistent row) : rowConsistent (update_calculation row p).2 := by
  unfold update_calculation
  split
  · exact hrow
  · rename_i r heq
    show CalculationFactory.calculate (.str (appliedRow row p r).type)
        (appliedRow row p r).a (appliedRow row p r).b = .ok (appliedRow row p r).result
    cases hp : p.type with
    | some t =>
        simp only [appliedRow, hp]
        rw [calculate_str_value]
        simpa [effectiveType, effectiveA, effectiveB, hp] using heq
    | none =>
        simp only [appliedRow, hp]
        simpa [effectiveType, effectiveA, effectiveB, hp] using heq

/-- The PUT pipeline preserves stored-row consistency. -/
theorem put_preserves_consistent (row : CalculationRow) (p : CalculationUpdate)
    (hrow : rowConsistent row) : rowConsistent (putCalculations row p).2 := by
  unfold putCalculations
  split
  · exact hrow
  · exact update_preserves_consistent row _ hrow

/-- C3: the `result` of every persisted row equals the output of the dispatcher on its
stored type and operands — established at creation and re-established by every
(successful) update, while rejections leave a consistent row consistent.  The
update schema carries no `result` field, so `result` is never independently
settable, and the `result` field of the read schema is required and always copied
from the row, so it is never null or absent in a returned representation. -/
theorem spec_C3 :
    (∀ (p : CalculationCreate) (uid : Int) (st : Nat) (row : CalculationRow),
        postCalculations p uid = .success st row → rowConsistent row) ∧
    (∀ (row : CalculationRow) (p : CalculationUpdate),
        rowConsistent row → rowConsistent (putCalculations row p).2) ∧
    (∀ (row : CalculationRow) (p : CalculationUpdate),
        rowConsistent row → rowConsistent (patchCalculations row p).2) ∧
    (∀ row : CalculationRow, (CalculationRead.ofRow row).result = row.result) :=
  ⟨fun _ _ _ _ h => post_success_consistent h,
   fun row p hrow => put_preserves_consistent row p hrow,
   fun row p hrow => by rw [patchCalculations_eq]; exact put_preserves_consistent row p hrow,
   fun _ => rfl⟩

/-- Witness for C3: the row created from `{a:10, b:5, type:Add}` is consistent,
and stays consistent through an update that changes the type to `Subtract`. -/
theorem spec_C3_witness :
    rowConsistent ⟨.mk0 10, .mk0 5, "Add", PyFloat.add (.mk0 10) (.mk0 5), some 1⟩ ∧
    rowConsistent (putCalculations
      ⟨.mk0 10, .mk0 5, "Add", PyFloat.add (.mk0 10) (.mk0 5), some 1⟩
      ⟨none, none, some .SUBTRACT, none⟩).2 :=
  ⟨spec_C3.1 ⟨.mk0 10, .mk0 5, .ADD, none⟩ 1 201 _ rfl,
   spec_C3.2.1 _ ⟨none, none, some .SUBTRACT, none⟩
     (spec_C3.1 ⟨.mk0 10, .mk0 5, .ADD, none⟩ 1 201 _ rfl)⟩
/-- C4: whenever the effective `(a, b, type)` triple of an update or partial
update makes the dispatcher fail with the divide-by-zero error, both pipelines
reject the request with a client error (422 from the schema validator or 400
from the route body) and perform no mutation: the stored row — every field of
it — is returned unchanged. -/
theorem spec_C4 (row : CalculationRow) (p : CalculationUpdate)
    (h : CalculationFactory.calculate (effectiveType row p) (effectiveA row p)
        (effectiveB row p) = .error divisionByZeroError) :
    ((putCalculations row p).1.isClientError ∧ (putCalculations row p).2 = row) ∧
    ((patchCalculations row p).1.isClientError ∧ (patchCalculations row p).2 = row) := by
  have hput : (putCalculations row p).1.isClientError ∧ (putCalculations row p).2 = row := by
    unfold putCalculations
    split
    · refine ⟨?_, rfl⟩
      show 400 ≤ 422 ∧ 422 < 500
      decide
    · rename_i p2 hval
      obtain rfl : p2 = p := CalculationUpdate.validate_keeps hval
      unfold update_calculation
      rw [h]
      refine ⟨?_, rfl⟩
      show 400 ≤ 400 ∧ 400 < 500
      decide
  refine ⟨hput, ?_⟩
  rw [patchCalculations_eq]
  exact hput

/-- Witness for C4: the update scenario of the spec — stored `{a:10, b:2, type:Add,
result:12}`, update payload `{b:0, type:Divide}` — is rejected and the stored
row is returned unchanged, by both PUT and PATCH. -/
theorem spec_C4_witness :
    ((putCalculations ⟨.mk0 10, .mk0 2, "Add", .mk0 12, some 1⟩
        ⟨none, some (.mk0 0), some .DIVIDE, none⟩).1.isClientError ∧
      (putCalculations ⟨.mk0 10, .mk0 2, "Add", .mk0 12, some 1⟩
        ⟨none, some (.mk0 0), some .DIVIDE, none⟩).2 =
        ⟨.mk0 10, .mk0 2, "Add", .mk0 12, some 1⟩) ∧
    ((patchCalculations ⟨.mk0 10, .mk0 2, "Add", .mk0 12, some 1⟩
        ⟨none, some (.mk0 0), some .DIVIDE, none⟩).1.isClientError ∧
      (patchCalculations ⟨.mk0 10, .mk0 2, "Add", .mk0 12, some 1⟩
        ⟨none, some (.mk0 0), some .DIVIDE, none⟩).2 =
        ⟨.mk0 10, .mk0 2, "Add", .mk0 12, some 1⟩) :=
  spec_C4 ⟨.mk0 10, .mk0 2, "Add", .mk0 12, some 1⟩
    ⟨none, some (.mk0 0), some .DIVIDE, none⟩ (by rfl)

/-- C5: when the dispatcher succeeds on the effective triple, both update
pipelines succeed and write exactly the supplied fields plus the recomputed
result: each omitted field of the written row equals the previously stored
value (`Option.getD` defaulting), never a reset. -/
theorem spec_C5 (row : CalculationRow) (p : CalculationUpdate) (r : PyFloat)
    (h : CalculationFactory.calculate (effectiveType row p) (effectiveA row p)
        (effectiveB row p) = .ok r) :
    putCalculations row p =
      (.success 200 (appliedRow row p r), appliedRow row p r) ∧
    patchCalculations row p =
      (.success 200 (appliedRow row p r), appliedRow row p r) ∧
    (appliedRow row p r).a = p.a.getD row.a ∧
    (appliedRow row p r).b = p.b.getD row.b ∧
    (appliedRow row p r).type = (p.type.map CalculationType.value).getD row.type ∧
    (appliedRow row p r).result = r ∧
    (appliedRow row p r).user_id = (p.user_id.map some).getD row.user_id := by
  have hput : putCalculations row p =
      (.success 200 (appliedRow row p r), appliedRow row p r) := by
    unfold putCalculations
    split
    · rename_i m hval
      exfalso
      obtain ⟨htype, bv, hb, hz⟩ := CalculationUpdate.validate_error hval
      have het : effectiveType row p = .enum .DIVIDE := by
        simp [effectiveType, htype]
      rw [het] at h
      have hfalse := divide_ok_eqZero h
      rw [show effectiveB row p = bv by simp [effectiveB, hb]] at hfalse
      rw [hz] at hfalse
      exact absurd hfalse (by simp)
    · rename_i p2 hval
      obtain rfl : p2 = p := CalculationUpdate.validate_keeps hval
      unfold update_calculation
      rw [h]
  refine ⟨hput, ?_, rfl, rfl, ?_, rfl, ?_⟩
  · rw [patchCalculations_eq]
    exact hput
  · cases hp : p.type <;> simp [appliedRow, hp]
  · cases hu : p.user_id <;> simp [appliedRow, hu]

/-- Witness for C5: the scenario of the spec — stored `{a:10, b:5, type:Add,
result:15}`, payload supplying only `type:Subtract` — yields result `5` with
`a` and `b` (and the owner) unchanged, through both pipelines. -/
theorem spec_C5_witness :
    putCalculations ⟨.mk0 10, .mk0 5, "Add", .mk0 15, some 1⟩
        ⟨none, none, some .SUBTRACT, none⟩ =
      (.success 200 ⟨.mk0 10, .mk0 5, "Subtract", .mk0 5, some 1⟩,
        ⟨.mk0 10, .mk0 5, "Subtract", .mk0 5, some 1⟩) := by
  have hsub : PyFloat.sub (.mk0 10) (.mk0 5) = .mk0 5 := by
    simp [PyFloat.sub, PyFloat.add, PyFloat.negF, PyFloat.mk0]
    norm_num
  have h := (spec_C5 ⟨.mk0 10, .mk0 5, "Add", .mk0 15, some 1⟩
    ⟨none, none, some .SUBTRACT, none⟩ (PyFloat.sub (.mk0 10) (.mk0 5)) rfl).1
  rw [hsub] at h
  exact h
/-- A row persisted by the create route body never combines `Divide` with a
zero divisor: such a triple makes the dispatcher fail before persistence. -/
theorem create_success_divideSafe {p : CalculationCreate} {uid : Int}
    {st : Nat} {row : CalculationRow}
    (h : create_calculation p uid = .success st row) : divideSafe row := by
  unfold create_calculation at h
  split at h
  · exact absurd h (by simp)
  · rename_i r heq
    cases h
    intro htype
    change p.type.value = "Divide" at htype
    show p.b.eqZero = false
    cases hp : p.type
    case DIVIDE =>
      rw [hp] at heq
      exact divide_ok_eqZero heq
    all_goals rw [hp] at htype
    all_goals exact absurd htype (by decide)

/-- A row persisted through the POST pipeline is divide-safe. -/
theorem post_success_divideSafe {p : CalculationCreate} {uid : Int}
    {st : Nat} {row : CalculationRow}
    (h : postCalculations p uid = .success st row) : divideSafe row := by
  unfold postCalculations at h
  split at h
  · exact absurd h (by simp)
  · exact create_success_divideSafe h

/-- The PUT route body preserves divide-safety: a rejected request leaves the
row untouched, and a successful one only stores `Divide` together with the
nonzero effective divisor the dispatcher just accepted. -/
theorem update_preserves_divideSafe (row : CalculationRow) (p : CalculationUpdate)
    (hrow : divideSafe row) : divideSafe (update_calculation row p).2 := by
  unfold update_calculation
  split
  · exact hrow
  · rename_i r heq
    intro htype
    show (p.b.getD row.b).eqZero = false
    cases hp : p.type with
    | some t =>
        have htv : t.value = "Divide" := by simpa [appliedRow, hp] using htype
        have ht : t = .DIVIDE := by
          cases t <;> simp_all [CalculationType.value]
        rw [show effectiveType row p = .enum .DIVIDE by
          simp [effectiveType, hp, ht]] at heq
        exact divide_ok_eqZero heq
    | none =>
        have hrt : row.type = "Divide" := by simpa [appliedRow, hp] using htype
        rw [show effectiveType row p = .str "Divide" by
          simp [effectiveType, hp, hrt]] at heq
        rw [show (CalcTag.str "Divide") = .str (CalculationType.value .DIVIDE) from rfl,
          calculate_str_value] at heq
        exact divide_ok_eqZero heq

/-- The PUT pipeline preserves divide-safety. -/
theorem put_preserves_divideSafe (row : CalculationRow) (p : CalculationUpdate)
    (hrow : divideSafe row) : divideSafe (putCalculations row p).2 := by
  unfold putCalculations
  split
  · exact hrow
  · exact update_preserves_divideSafe row _ hrow

/-- C6: no reachable persisted row combines `type = Divide` with `b == 0`:
creation never persists such a row, and both update pipelines preserve the
property — the combination is rejected before any write, never written and
cleaned up afterwards. -/
theorem spec_C6 :
    (∀ (p : CalculationCreate) (uid : Int) (st : Nat) (row : CalculationRow),
        postCalculations p uid = .success st row → divideSafe row) ∧
    (∀ (row : CalculationRow) (p : CalculationUpdate),
        divideSafe row → divideSafe (putCalculations row p).2) ∧
    (∀ (row : CalculationRow) (p : CalculationUpdate),
        divideSafe row → divideSafe (patchCalculations row p).2) :=
  ⟨fun _ _ _ _ h => post_success_divideSafe h,
   fun row p hrow => put_preserves_divideSafe row p hrow,
   fun row p hrow => by rw [patchCalculations_eq]; exact put_preserves_divideSafe row p hrow⟩

/-- Witness for C6: creating `{a:10, b:2, type:Divide}` yields a divide-safe
row, and updating it with `{b:0}` (rejected) leaves it divide-safe, through
both pipelines. -/
theorem spec_C6_witness :
    divideSafe ⟨.mk0 10, .mk0 2, "Divide", PyFloat.div (.mk0 10) (.mk0 2), some 1⟩ ∧
    divideSafe (putCalculations
      ⟨.mk0 10, .mk0 2, "Divide", PyFloat.div (.mk0 10) (.mk0 2), some 1⟩
      ⟨none, some (.mk0 0), none, none⟩).2 ∧
    divideSafe (patchCalculations
      ⟨.mk0 10, .mk0 2, "Divide", PyFloat.div (.mk0 10) (.mk0 2), some 1⟩
      ⟨none, some (.mk0 0), none, none⟩).2 :=
  ⟨spec_C6.1 ⟨.mk0 10, .mk0 2, .DIVIDE, none⟩ 1 201 _ rfl,
   spec_C6.2.1 _ ⟨none, some (.mk0 0), none, none⟩
     (spec_C6.1 ⟨.mk0 10, .mk0 2, .DIVIDE, none⟩ 1 201 _ rfl),
   spec_C6.2.2 _ ⟨none, some (.mk0 0), none, none⟩
     (spec_C6.1 ⟨.mk0 10, .mk0 2, .DIVIDE, none⟩ 1 201 _ rfl)⟩
/-- C7: a tag Python-equal to none of the four members makes `calculate` fail
with the unsupported-type error — a distinct, identifiable error, carried by
the message "Unsupported calculation type: ..." and never equal to the
divide-by-zero error (both are raised as `ValueError`; the message is what
distinguishes the two kinds) — and when such a tag reaches an update route
(a stored `type` string outside the set), the route reports it as a 400
client error with that message rather than swallowing it, leaving the row
unchanged. -/
theorem spec_C7 (tag : CalcTag) (a b : PyFloat)
    (h : ∀ t : CalculationType, CalcTag.pyEq (.enum t) tag = false) :
    CalculationFactory.calculate tag a b =
      .error (valueError ("Unsupported calculation type: " ++ tag.fmt)) ∧
    valueError ("Unsupported calculation type: " ++ tag.fmt) ≠ divisionByZeroError ∧
    ∀ (row : CalculationRow) (p : CalculationUpdate), effectiveType row p = tag →
      putCalculations row p =
        (.clientError 400 ("Unsupported calculation type: " ++ tag.fmt), row) := by
  have hcalc : ∀ x y : PyFloat, CalculationFactory.calculate tag x y =
      .error (valueError ("Unsupported calculation type: " ++ tag.fmt)) := by
    intro x y
    unfold CalculationFactory.calculate
    rw [create_operation_unsupported tag h]
  refine ⟨hcalc a b, ?_, ?_⟩
  · intro hEq
    exact unsupported_msg_ne tag.fmt (congrArg PyError.msg hEq)
  · intro row p heff
    have hptype : p.type = none := by
      cases hp : p.type with
      | some t =>
          rw [show effectiveType row p = .enum t by simp [effectiveType, hp]] at heff
          have := h t
          rw [← heff] at this
          simp [CalcTag.pyEq] at this
      | none => rfl
    have hval : p.validate = .ok p := by
      unfold CalculationUpdate.validate
      rw [hptype]
    unfold putCalculations
    rw [hval]
    show update_calculation row p = _
    unfold update_calculation
    rw [heff, hcalc]
    rfl

/-- Witness for C7 at the tag `"Power"`: the dispatcher fails with the
unsupported-type error, and a stored row whose `type` column is `"Power"`
makes an empty update request fail with a 400 response carrying the message,
the row staying unchanged. -/
theorem spec_C7_witness :
    CalculationFactory.calculate (.str "Power") (.mk0 1) (.mk0 1) =
      .error (valueError ("Unsupported calculation type: " ++ "Power")) ∧
    valueError ("Unsupported calculation type: " ++ "Power") ≠ divisionByZeroError ∧
    putCalculations ⟨.mk0 1, .mk0 1, "Power", .mk0 1, none⟩ ⟨none, none, none, none⟩ =
      (.clientError 400 ("Unsupported calculation type: " ++ "Power"),
        ⟨.mk0 1, .mk0 1, "Power", .mk0 1, none⟩) := by
  have h := spec_C7 (.str "Power") (.mk0 1) (.mk0 1) (by intro t; cases t <;> rfl)
  exact ⟨h.1, h.2.1,
    h.2.2 ⟨.mk0 1, .mk0 1, "Power", .mk0 1, none⟩ ⟨none, none, none, none⟩ rfl⟩
